import Mathlib

/-!
A shallow embedding of the learning-reminder backend
(`src/backend/main.py`, `src/backend/analytics.py`, `src/backend/models.py`)
and proofs checking the natural-language specification against it.

Modelling conventions:
* Timestamps are rationals (hours on an abstract time axis); `timedelta(hours=h)`
  becomes addition of `h`.  Python float literals `0.1`, `0.8`, `1.2` become the
  exact rationals `1/10`, `4/5`, `6/5`; at every value the claims mention, the
  float computation and the rational computation agree.
* `datetime.fromisoformat` is library code, not repository code: it is passed in
  as an abstract `parse : String → Option ℚ`, so theorems quantify over it.
* The SQLAlchemy store becomes an explicit `DB` value (lists of rows); `.first()`
  is `List.find?`, a single-row UPDATE mutates only the first matching row,
  a filtered bulk DELETE is `List.filter`, and `db.delete(item)` erases the
  first row with the item's primary key.
* An HTTP handler that can raise `HTTPException` returns `Except Nat …`
  carrying the status code; raising before any write is modelled by returning
  `.error` with the store untouched.
-/

/-- Row of the `review_schedules` table (`models.py`, class `ReviewSchedule`). -/
structure ReviewSchedule where
  id : Nat
  learning_item_id : Nat
  review_number : Nat
  review_date : ℚ
  completed : Option ℚ
  is_deleted : Bool
deriving Repr, DecidableEq

/-- Row of the `learning_items` table (`models.py`, class `LearningItem`). -/
structure LearningItem where
  id : Nat
  title : String
  content : String
  learning_date : ℚ
  user_id : Nat
deriving Repr, DecidableEq

/-- The persisted store: the two tables the claims are about, plus the
primary-key counters the database assigns on insert (`db.flush`). -/
structure DB where
  items : List LearningItem
  schedules : List ReviewSchedule
  next_item_id : Nat
  next_schedule_id : Nat
deriving Repr, DecidableEq

/-- Python `int(q)` on a rational: truncation toward zero. -/
def pyInt (q : ℚ) : ℤ :=
  if 0 ≤ q then ⌊q⌋ else ⌈q⌉

/-- Round half to even to an integer, as Python's builtin `round` does. -/
def roundHalfEven (q : ℚ) : ℤ :=
  if q - ⌊q⌋ < 1/2 then ⌊q⌋
  else if 1/2 < q - ⌊q⌋ then ⌊q⌋ + 1
  else if 2 ∣ ⌊q⌋ then ⌊q⌋ else ⌊q⌋ + 1

/-- Python `round(q, 1)`: one decimal place, ties to even. -/
def pyRound1 (q : ℚ) : ℚ :=
  (roundHalfEven (q * 10) : ℚ) / 10

/-- `BASE_INTERVALS` from `main.py` line 48. -/
def BASE_INTERVALS : List ℚ := [1, 24, 72, 168, 336, 720]

/-- Result of `analyze_learning_pattern` (`analytics.py`): the returned dict. -/
structure Analytics where
  total_items : Nat
  completion_rate : ℚ
deriving Repr, DecidableEq

/-- `analytics.analyze_learning_pattern(db, user_id)`: count of the user's
learning items, and the rounded percentage of the user's non-deleted review
schedules (join on `learning_item_id`) whose `completed` is non-null. -/
def analyze_learning_pattern (db : DB) (user_id : Nat) : Analytics :=
  let total_items :=
    (db.items.filter (fun it => it.user_id == user_id)).length
  let all_schedules :=
    (db.schedules.filter (fun s =>
      (db.items.any (fun it => it.id == s.learning_item_id && it.user_id == user_id)) &&
      s.is_deleted == false)).length
  let completed_schedules :=
    (db.schedules.filter (fun s =>
      (db.items.any (fun it => it.id == s.learning_item_id && it.user_id == user_id)) &&
      !(s.completed == none) &&
      s.is_deleted == false)).length
  let completion_rate : ℚ :=
    if 0 < all_schedules then (completed_schedules : ℚ) / (all_schedules : ℚ) * 100 else 0
  { total_items := total_items, completion_rate := pyRound1 completion_rate }

/-- `analytics.optimize_review_intervals(completion_rate, base_intervals)`:
scale every base interval by a bucketed adjustment factor, truncated to int. -/
def optimize_review_intervals (completion_rate : ℚ) (base_intervals : List ℚ) : List ℤ :=
  let adjustment : ℚ :=
    if completion_rate < 50 then 4/5
    else if 80 < completion_rate then 6/5
    else 1
  base_intervals.map (fun interval => pyInt (interval * adjustment))

/-- One record of the JSON `review_schedule` array built by `calculate_reviews`. -/
structure ReviewRecord where
  review_number : Nat
  review_date : ℚ
  interval_hours : ℚ
  completed : Bool
  is_deleted : Bool
deriving Repr, DecidableEq

/-- `main.calculate_reviews(learning_date, repetition_number)` (`main.py` 50-79):
parse the anchor, scale the base intervals by `1 + 0.1 * repetition_number`,
add each to the anchor; on a parse failure raise HTTP 400. -/
def calculate_reviews (parse : String → Option ℚ)
    (learning_date : String) (repetition_number : ℤ) :
    Except Nat (List ReviewRecord) :=
  match parse learning_date with
  | none => .error 400
  | some date =>
    let base_intervals : List ℚ := [1, 24, 72, 168, 336, 720]
    let adjusted_intervals :=
      base_intervals.map (fun interval => interval * (1 + 1/10 * (repetition_number : ℚ)))
    let review_dates := adjusted_intervals.map (fun interval => date + interval)
    .ok ((review_dates.zip adjusted_intervals).enum.map (fun p =>
      { review_number := p.1 + 1
        review_date := p.2.1
        interval_hours := p.2.2
        completed := false
        is_deleted := false }))

/-- `main.create_learning_item` (`main.py` 81-139): parse the date (HTTP 400 on
failure), analyze the user, optimize the intervals, insert the item and one
schedule per optimized interval, all committed together. -/
def create_learning_item (parse : String → Option ℚ) (db : DB)
    (title content learning_date_str : String) (user_id : Nat) :
    Except Nat DB :=
  match parse learning_date_str with
  | none => .error 400
  | some learning_date =>
    let analytics := analyze_learning_pattern db user_id
    let intervals := optimize_review_intervals analytics.completion_rate BASE_INTERVALS
    let item : LearningItem :=
      { id := db.next_item_id, title := title, content := content
        learning_date := learning_date, user_id := user_id }
    let review_dates := intervals.map (fun (interval : ℤ) => learning_date + (interval : ℚ))
    let new_schedules := review_dates.enum.map (fun p =>
      { id := db.next_schedule_id + p.1
        learning_item_id := item.id
        review_number := p.1 + 1
        review_date := p.2
        completed := none
        is_deleted := false : ReviewSchedule })
    .ok { items := db.items ++ [item]
          schedules := db.schedules ++ new_schedules
          next_item_id := db.next_item_id + 1
          next_schedule_id := db.next_schedule_id + new_schedules.length }

/-- Update the first list element satisfying `p` (a single-row SQL UPDATE
through `.first()`). -/
def updateFirst (p : α → Bool) (f : α → α) : List α → List α
  | [] => []
  | x :: xs => if p x then f x :: xs else x :: updateFirst p f xs

/-- The single-row assignment `schedule.completed = datetime.utcnow()`. -/
def completeUpd (now : ℚ) (s : ReviewSchedule) : ReviewSchedule :=
  { s with completed := some now }

/-- The single-row assignment `schedule.is_deleted = True`. -/
def deleteUpd (s : ReviewSchedule) : ReviewSchedule :=
  { s with is_deleted := true }

/-- `main.complete_review(schedule_id)` (`main.py` 161-177): look the schedule
up by id (no `is_deleted` filter); 404 if absent; otherwise overwrite its
`completed` with the current time and return it. -/
def complete_review (db : DB) (schedule_id : Nat) (now : ℚ) :
    Except Nat (DB × ℚ) :=
  match db.schedules.find? (fun s => s.id == schedule_id) with
  | none => .error 404
  | some _ =>
    let schedules :=
      updateFirst (fun s => s.id == schedule_id) (completeUpd now) db.schedules
    .ok ({ db with schedules := schedules }, now)

/-- `main.delete_review(schedule_id)` (`main.py` 179-194): look the schedule up
by id; 404 if absent; otherwise set its `is_deleted` flag to true. -/
def delete_review (db : DB) (schedule_id : Nat) : Except Nat DB :=
  match db.schedules.find? (fun s => s.id == schedule_id) with
  | none => .error 404
  | some _ =>
    let schedules :=
      updateFirst (fun s => s.id == schedule_id) deleteUpd db.schedules
    .ok { db with schedules := schedules }

/-- `main.get_review_schedules(learning_item_id)` (`main.py` 196-218): the
item's schedules with `is_deleted == False`. -/
def get_review_schedules (db : DB) (learning_item_id : Nat) : List ReviewSchedule :=
  db.schedules.filter (fun s =>
    s.learning_item_id == learning_item_id && s.is_deleted == false)

/-- `main.delete_learning_item(item_id)` (`main.py` 276-285): 404 if the item is
absent; otherwise bulk-delete every schedule with that `learning_item_id`,
then delete the item row itself. -/
def delete_learning_item (db : DB) (item_id : Nat) : Except Nat DB :=
  match db.items.find? (fun it => it.id == item_id) with
  | none => .error 404
  | some _ =>
    .ok { db with
          schedules := db.schedules.filter (fun s => !(s.learning_item_id == item_id))
          items := db.items.eraseP (fun it => it.id == item_id) }

/-- The single adjustment factor as the specification words it:
0.8 below 50, 1.2 above 80, 1.0 otherwise. -/
def specAdjustmentFactor (r : ℚ) : ℚ :=
  if r < 50 then 4/5 else if 80 < r then 6/5 else 1

/-- C2: `optimize_review_intervals(r, bs)` is the pointwise truncated scaling of
`bs` by the three-bucket factor (0.8 / 1.2 / 1.0), and on the spec's three
examples it returns [8,16], [12,24] and [10,20] respectively. -/
theorem C2_optimizer_single_factor (r : ℚ) (bs : List ℚ) :
    optimize_review_intervals r bs =
      bs.map (fun b => pyInt (b * specAdjustmentFactor r)) ∧
    optimize_review_intervals 40 [10, 20] = [8, 16] ∧
    optimize_review_intervals 90 [10, 20] = [12, 24] ∧
    optimize_review_intervals 65 [10, 20] = [10, 20] := by
  refine ⟨rfl, ?_, ?_, ?_⟩ <;> norm_num [optimize_review_intervals, pyInt]

/-- C6: when the anchor string does not parse as a date, `calculate_reviews`
and `create_learning_item` both fail with HTTP 400 ("invalid input"); the
error carries no store, so no learning item and no schedule is created:
in the source the parse happens before any `db.add`/`db.commit`. -/
theorem C6_unparsable_date_client_error (parse : String → Option ℚ) (s : String)
    (hp : parse s = none) (n : ℤ) (db : DB) (title content : String) (user_id : Nat) :
    calculate_reviews parse s n = .error 400 ∧
    create_learning_item parse db title content s user_id = .error 400 := by
  constructor <;> simp [calculate_reviews, create_learning_item, hp]

/-- C6 witness at a concrete failing parse. -/
theorem C6_unparsable_date_client_error_witness :
    calculate_reviews (fun _ => none) "not-a-date" 0 = .error 400 ∧
    create_learning_item (fun _ => none) ⟨[], [], 1, 1⟩ "t" "c" "not-a-date" 7 =
      .error 400 :=
  C6_unparsable_date_client_error (fun _ => none) "not-a-date" rfl 0 ⟨[], [], 1, 1⟩ "t" "c" 7

/-- C1: on a parseable anchor `date` and repetition count `n ≥ 0`,
`calculate_reviews` returns exactly six records, numbered 1..6, each with
`interval_hours = base * (1 + 0.1 n)` over the base table [1,24,72,168,336,720]
and `review_date = date + interval_hours`, `completed = false`,
`is_deleted = false`; for `n = 0` the review dates are exactly
`date + {1,24,72,168,336,720}` hours. -/
theorem C1_calculate_reviews_records (parse : String → Option ℚ) (s : String)
    (n : ℤ) (date : ℚ) (hp : parse s = some date) (hn : 0 ≤ n) :
    calculate_reviews parse s n = .ok
      [⟨1, date + 1 * (1 + 1/10 * (n : ℚ)), 1 * (1 + 1/10 * (n : ℚ)), false, false⟩,
       ⟨2, date + 24 * (1 + 1/10 * (n : ℚ)), 24 * (1 + 1/10 * (n : ℚ)), false, false⟩,
       ⟨3, date + 72 * (1 + 1/10 * (n : ℚ)), 72 * (1 + 1/10 * (n : ℚ)), false, false⟩,
       ⟨4, date + 168 * (1 + 1/10 * (n : ℚ)), 168 * (1 + 1/10 * (n : ℚ)), false, false⟩,
       ⟨5, date + 336 * (1 + 1/10 * (n : ℚ)), 336 * (1 + 1/10 * (n : ℚ)), false, false⟩,
       ⟨6, date + 720 * (1 + 1/10 * (n : ℚ)), 720 * (1 + 1/10 * (n : ℚ)), false, false⟩] ∧
    (n = 0 →
      (calculate_reviews parse s n).map (fun recs => recs.map (fun r => r.review_date)) =
        .ok [date + 1, date + 24, date + 72, date + 168, date + 336, date + 720]) := by
  constructor
  · simp [calculate_reviews, hp, List.enum, List.enumFrom]
  · rintro rfl
    simp [calculate_reviews, hp, List.enum, List.enumFrom, Except.map]

/-- C1 witness at a concrete parse, anchor 0 and repetition count 2. -/
theorem C1_calculate_reviews_records_witness :
    calculate_reviews (fun _ => some 0) "2024-01-01T00:00:00" 2 = .ok
      [⟨1, 0 + 1 * (1 + 1/10 * (2 : ℚ)), 1 * (1 + 1/10 * (2 : ℚ)), false, false⟩,
       ⟨2, 0 + 24 * (1 + 1/10 * (2 : ℚ)), 24 * (1 + 1/10 * (2 : ℚ)), false, false⟩,
       ⟨3, 0 + 72 * (1 + 1/10 * (2 : ℚ)), 72 * (1 + 1/10 * (2 : ℚ)), false, false⟩,
       ⟨4, 0 + 168 * (1 + 1/10 * (2 : ℚ)), 168 * (1 + 1/10 * (2 : ℚ)), false, false⟩,
       ⟨5, 0 + 336 * (1 + 1/10 * (2 : ℚ)), 336 * (1 + 1/10 * (2 : ℚ)), false, false⟩,
       ⟨6, 0 + 720 * (1 + 1/10 * (2 : ℚ)), 720 * (1 + 1/10 * (2 : ℚ)), false, false⟩] :=
  (C1_calculate_reviews_records (fun _ => some 0) "2024-01-01T00:00:00" 2 0 rfl
    (by norm_num)).1

/-- C7: for a parseable anchor and repetition count `n ≥ 0`, the review dates
returned by `calculate_reviews` are strictly increasing. -/
theorem C7_review_dates_strictly_increasing (parse : String → Option ℚ) (s : String)
    (n : ℤ) (date : ℚ) (hp : parse s = some date) (hn : 0 ≤ n) :
    ∃ recs, calculate_reviews parse s n = .ok recs ∧
      (recs.map (fun r => r.review_date)).Chain' (· < ·) := by
  refine ⟨_, (C1_calculate_reviews_records parse s n date hp hn).1, ?_⟩
  have hq : (0 : ℚ) ≤ (n : ℚ) := by exact_mod_cast hn
  simp [List.chain'_cons]
  refine ⟨?_, ?_, ?_, ?_, ?_⟩ <;> nlinarith [hq]

/-- C7 witness at a concrete parse, anchor 5 and repetition count 3. -/
theorem C7_review_dates_strictly_increasing_witness :
    ∃ recs, calculate_reviews (fun _ => some 5) "x" 3 = .ok recs ∧
      (recs.map (fun r => r.review_date)).Chain' (· < ·) :=
  C7_review_dates_strictly_increasing (fun _ => some 5) "x" 3 5 rfl (by norm_num)

/-- C9: for a user whose analyzed completion rate is below 50, the optimizer
maps the base table to [0, 19, 57, 134, 268, 576] — the first base interval of
1 hour is truncated to `int(1 * 0.8) = 0` — so `create_learning_item` stores a
first review schedule (review_number 1) whose review_date is exactly the
learning date, with no delay. -/
theorem C9_low_rate_first_review_at_anchor (parse : String → Option ℚ) (db : DB)
    (title content s : String) (user_id : Nat) (date : ℚ)
    (hp : parse s = some date)
    (hr : (analyze_learning_pattern db user_id).completion_rate < 50) :
    optimize_review_intervals (analyze_learning_pattern db user_id).completion_rate
        BASE_INTERVALS = [0, 19, 57, 134, 268, 576] ∧
    ∃ db', create_learning_item parse db title content s user_id = .ok db' ∧
      ∃ sch ∈ db'.schedules,
        sch.learning_item_id = db.next_item_id ∧ sch.review_number = 1 ∧
        sch.review_date = date := by
  have hopt : optimize_review_intervals
      (analyze_learning_pattern db user_id).completion_rate BASE_INTERVALS
      = [0, 19, 57, 134, 268, 576] := by
    norm_num [optimize_review_intervals, pyInt, BASE_INTERVALS, hr]
  refine ⟨hopt, ?_⟩
  simp only [create_learning_item, hp]
  rw [hopt]
  refine ⟨_, rfl, ?_⟩
  simp [List.enum, List.enumFrom]
  exact ⟨_, Or.inr (Or.inl rfl), rfl, rfl, rfl⟩

/-- C9 witness: an empty store has completion rate 0 < 50. -/
theorem C9_low_rate_first_review_at_anchor_witness :
    optimize_review_intervals (analyze_learning_pattern ⟨[], [], 1, 1⟩ 7).completion_rate
        BASE_INTERVALS = [0, 19, 57, 134, 268, 576] ∧
    ∃ db', create_learning_item (fun _ => some 0) ⟨[], [], 1, 1⟩ "t" "c" "d" 7 = .ok db' ∧
      ∃ sch ∈ db'.schedules,
        sch.learning_item_id = 1 ∧ sch.review_number = 1 ∧
        sch.review_date = 0 :=
  C9_low_rate_first_review_at_anchor (fun _ => some 0) ⟨[], [], 1, 1⟩ "t" "c" "d" 7 0 rfl
    (by norm_num [analyze_learning_pattern, pyRound1, roundHalfEven])

theorem find?_updateFirst {α} (p : α → Bool) (f : α → α)
    (hf : ∀ a, p (f a) = p a) (l : List α) (x : α) (h : l.find? p = some x) :
    (updateFirst p f l).find? p = some (f x) := by
  induction l with
  | nil => simp at h
  | cons a l ih =>
    by_cases hp : p a
    · rw [List.find?_cons_of_pos _ hp] at h
      injection h with h
      subst h
      rw [updateFirst, if_pos hp]
      exact List.find?_cons_of_pos _ (by rw [hf]; exact hp)
    · rw [List.find?_cons_of_neg _ hp] at h
      rw [updateFirst, if_neg hp]
      rw [List.find?_cons_of_neg _ hp]
      exact ih h

theorem find?_eraseP_of_nodup {α} (f : α → Nat) (l : List α) (k : Nat)
    (hn : (l.map f).Nodup) :
    (l.eraseP (fun a => f a == k)).find? (fun a => f a == k) = none := by
  induction l with
  | nil => simp
  | cons a l ih =>
    rw [List.map_cons, List.nodup_cons] at hn
    by_cases hp : f a = k
    · simp only [List.eraseP_cons, hp, beq_self_eq_true, cond_true]
      rw [List.find?_eq_none]
      intro x hx hpx
      refine hn.1 (List.mem_map.mpr ⟨x, hx, ?_⟩)
      have h1 : f x = k := by simpa using hpx
      rw [hp]
      exact h1
    · have hpb : (f a == k) = false := beq_eq_false_iff_ne.mpr hp
      simp only [List.eraseP_cons, hpb, cond_false]
      rw [List.find?_cons_of_neg _ (by simp [hp])]
      exact ih hn.2

/-- C8: `complete_review` and `delete_review` answer 404 exactly when no stored
schedule carries the requested id (the error carries no store, matching the
source, which raises before writing anything); on success `complete_review`
leaves the items untouched and sets the schedule's `completed` to the call
time, and `delete_review` leaves the items untouched and sets the schedule's
`is_deleted` to true. -/
theorem C8_not_found_iff_no_schedule (db : DB) (schedule_id : Nat) (now : ℚ) :
    (complete_review db schedule_id now = .error 404 ↔
      ¬ ∃ s ∈ db.schedules, s.id = schedule_id) ∧
    (delete_review db schedule_id = .error 404 ↔
      ¬ ∃ s ∈ db.schedules, s.id = schedule_id) ∧
    (∀ db' r, complete_review db schedule_id now = .ok (db', r) →
      db'.items = db.items ∧
      (db'.schedules.find? (fun s => s.id == schedule_id)).map
        (fun s => s.completed) = some (some now)) ∧
    (∀ db', delete_review db schedule_id = .ok db' →
      db'.items = db.items ∧
      (db'.schedules.find? (fun s => s.id == schedule_id)).map
        (fun s => s.is_deleted) = some true) := by
  have hiff : (db.schedules.find? (fun s => s.id == schedule_id) = none) ↔
      ¬ ∃ s ∈ db.schedules, s.id = schedule_id := by
    rw [List.find?_eq_none]
    simp
  refine ⟨?_, ?_, ?_, ?_⟩
  · rw [← hiff]
    cases hf : db.schedules.find? (fun s => s.id == schedule_id) with
    | none => simp [complete_review, hf]
    | some sch => simp [complete_review, hf]
  · rw [← hiff]
    cases hf : db.schedules.find? (fun s => s.id == schedule_id) with
    | none => simp [delete_review, hf]
    | some sch => simp [delete_review, hf]
  · intro db' r h
    unfold complete_review at h
    cases hf : db.schedules.find? (fun s => s.id == schedule_id) with
    | none => rw [hf] at h; exact absurd h (by simp)
    | some sch =>
      rw [hf] at h
      simp at h
      obtain ⟨hdb, hr⟩ := h
      refine ⟨by rw [← hdb], ?_⟩
      rw [← hdb]
      dsimp only
      rw [find?_updateFirst (fun s => s.id == schedule_id)
        (completeUpd now) (fun a => rfl) db.schedules sch hf]
      rfl
  · intro db' h
    unfold delete_review at h
    cases hf : db.schedules.find? (fun s => s.id == schedule_id) with
    | none => rw [hf] at h; exact absurd h (by simp)
    | some sch =>
      rw [hf] at h
      simp at h
      refine ⟨by rw [← h], ?_⟩
      rw [← h]
      dsimp only
      rw [find?_updateFirst (fun s => s.id == schedule_id)
        deleteUpd (fun a => rfl) db.schedules sch hf]
      rfl

/-- C10: a soft-deleted schedule is still found by the mutation lookups:
`complete_review` on it does not answer 404 but sets its `completed`, and
`delete_review` on it succeeds again, leaving `is_deleted` true. -/
theorem C10_soft_deleted_still_mutable (db : DB) (schedule_id : Nat) (now : ℚ)
    (sch : ReviewSchedule)
    (h : db.schedules.find? (fun s => s.id == schedule_id) = some sch)
    (hdel : sch.is_deleted = true) :
    complete_review db schedule_id now ≠ .error 404 ∧
    (∃ db', complete_review db schedule_id now = .ok (db', now) ∧
      (db'.schedules.find? (fun s => s.id == schedule_id)).map
        (fun s => s.completed) = some (some now)) ∧
    (∃ db', delete_review db schedule_id = .ok db' ∧
      (db'.schedules.find? (fun s => s.id == schedule_id)).map
        (fun s => s.is_deleted) = some true) := by
  have hc : complete_review db schedule_id now =
      .ok ({ db with schedules := updateFirst (fun s => s.id == schedule_id) (completeUpd now) db.schedules }, now) := by
    unfold complete_review
    rw [h]
  have hd : delete_review db schedule_id =
      .ok { db with schedules := updateFirst (fun s => s.id == schedule_id) deleteUpd db.schedules } := by
    unfold delete_review
    rw [h]
  refine ⟨by rw [hc]; simp, ⟨_, hc, ?_⟩, ⟨_, hd, ?_⟩⟩
  · dsimp only
    rw [find?_updateFirst (fun s => s.id == schedule_id)
      (completeUpd now) (fun a => rfl) db.schedules sch h]
    rfl
  · dsimp only
    rw [find?_updateFirst (fun s => s.id == schedule_id)
      deleteUpd (fun a => rfl) db.schedules sch h]
    rfl

/-- C10 witness: a store holding one soft-deleted schedule (id 1). -/
theorem C10_soft_deleted_still_mutable_witness :
    complete_review ⟨[], [⟨1, 1, 1, 10, none, true⟩], 2, 2⟩ 1 7 ≠ .error 404 ∧
    (∃ db', complete_review ⟨[], [⟨1, 1, 1, 10, none, true⟩], 2, 2⟩ 1 7 = .ok (db', 7) ∧
      (db'.schedules.find? (fun s => s.id == 1)).map
        (fun s => s.completed) = some (some 7)) ∧
    (∃ db', delete_review ⟨[], [⟨1, 1, 1, 10, none, true⟩], 2, 2⟩ 1 = .ok db' ∧
      (db'.schedules.find? (fun s => s.id == 1)).map
        (fun s => s.is_deleted) = some true) :=
  C10_soft_deleted_still_mutable ⟨[], [⟨1, 1, 1, 10, none, true⟩], 2, 2⟩ 1 7
    ⟨1, 1, 1, 10, none, true⟩ (by rfl) rfl

/-- C4 counterexample: the claim "a subsequent complete_review call on the same
schedule_id leaves the original completed timestamp unchanged" is false: a
schedule whose `completed` is 5 has it overwritten to the new call time 7. -/
theorem C4_counterexample_recomplete_overwrites :
    complete_review ⟨[], [⟨1, 1, 1, 10, some 5, false⟩], 2, 2⟩ 1 7 =
      .ok (⟨[], [⟨1, 1, 1, 10, some 7, false⟩], 2, 2⟩, 7) ∧
    some (7 : ℚ) ≠ some (5 : ℚ) := by
  refine ⟨rfl, by norm_num⟩

/-- C4 amended: `completed` is not write-once; `complete_review` on an existing
schedule always overwrites `completed` with the current call time — the last
completion wins, whatever was stored before. -/
theorem C4_amended_last_completion_wins (db : DB) (schedule_id : Nat) (now : ℚ)
    (sch : ReviewSchedule)
    (h : db.schedules.find? (fun s => s.id == schedule_id) = some sch) :
    ∃ db', complete_review db schedule_id now = .ok (db', now) ∧
      (db'.schedules.find? (fun s => s.id == schedule_id)).map
        (fun s => s.completed) = some (some now) := by
  have hc : complete_review db schedule_id now =
      .ok ({ db with schedules := updateFirst (fun s => s.id == schedule_id) (completeUpd now) db.schedules }, now) := by
    unfold complete_review
    rw [h]
  refine ⟨_, hc, ?_⟩
  dsimp only
  rw [find?_updateFirst (fun s => s.id == schedule_id)
    (completeUpd now) (fun a => rfl) db.schedules sch h]
  rfl

/-- C4 amended witness: re-completing the already-completed schedule 1. -/
theorem C4_amended_last_completion_wins_witness :
    ∃ db', complete_review ⟨[], [⟨1, 1, 1, 10, some 5, false⟩], 2, 2⟩ 1 7 =
        .ok (db', 7) ∧
      (db'.schedules.find? (fun s => s.id == 1)).map
        (fun s => s.completed) = some (some 7) :=
  C4_amended_last_completion_wins ⟨[], [⟨1, 1, 1, 10, some 5, false⟩], 2, 2⟩ 1 7
    ⟨1, 1, 1, 10, some 5, false⟩ rfl

/-- C5: `delete_learning_item` on a stored item deletes the item row and every
schedule row of that item, so afterwards the schedule listing for the item is
empty, no schedule with that parent remains in the store at all, and
`complete_review` / `delete_review` on any of the item's former schedule ids
answer 404 (ids are unique: they are primary keys). -/
theorem C5_delete_item_cascades (db db' : DB) (item_id : Nat)
    (hsid : (db.schedules.map (fun s => s.id)).Nodup)
    (hiid : (db.items.map (fun it => it.id)).Nodup)
    (h : delete_learning_item db item_id = .ok db') :
    get_review_schedules db' item_id = [] ∧
    db'.items.find? (fun it => it.id == item_id) = none ∧
    db'.schedules.filter (fun s => s.learning_item_id == item_id) = [] ∧
    ∀ s ∈ db.schedules, s.learning_item_id = item_id →
      (∀ now, complete_review db' s.id now = .error 404) ∧
      delete_review db' s.id = .error 404 := by
  unfold delete_learning_item at h
  cases hf : db.items.find? (fun it => it.id == item_id) with
  | none => rw [hf] at h; exact absurd h (by simp)
  | some it =>
    rw [hf] at h
    simp at h
    subst h
    refine ⟨?_, ?_, ?_, ?_⟩
    · rw [get_review_schedules]
      dsimp only
      rw [List.filter_filter]
      rw [List.filter_eq_nil_iff]
      intro a ha
      by_cases hb : a.learning_item_id == item_id <;> simp_all
    · dsimp only
      exact find?_eraseP_of_nodup (fun it => it.id) db.items item_id hiid
    · dsimp only
      rw [List.filter_filter]
      rw [List.filter_eq_nil_iff]
      intro a ha
      by_cases hb : a.learning_item_id == item_id <;> simp_all
    · intro s hs hsl
      have hnone : (db.schedules.filter (fun x => !(x.learning_item_id == item_id))).find?
          (fun x => x.id == s.id) = none := by
        rw [List.find?_eq_none]
        intro x hx hpx
        rw [List.mem_filter] at hx
        have hxid : x.id = s.id := by simpa using hpx
        have hxs : x = s :=
          List.inj_on_of_nodup_map hsid hx.1 hs hxid
        rw [hxs] at hx
        simp [hsl] at hx
      constructor
      · intro now
        simp [complete_review, hnone]
      · simp [delete_review, hnone]

/-- C5 witness: item 1 with two schedules (one already soft-deleted); after
deletion the store is empty and both schedule ids answer 404. -/
theorem C5_delete_item_cascades_witness :
    get_review_schedules ⟨[], [], 2, 3⟩ 1 = [] ∧
    (DB.mk [] [] 2 3).items.find? (fun it => it.id == 1) = none ∧
    (DB.mk [] [] 2 3).schedules.filter (fun s => s.learning_item_id == 1) = [] ∧
    ∀ s ∈ (DB.mk [⟨1, "t", "c", 0, 7⟩]
        [⟨1, 1, 1, 1, none, false⟩, ⟨2, 1, 2, 24, none, true⟩] 2 3).schedules,
      s.learning_item_id = 1 →
      (∀ now, complete_review ⟨[], [], 2, 3⟩ s.id now = .error 404) ∧
      delete_review ⟨[], [], 2, 3⟩ s.id = .error 404 :=
  C5_delete_item_cascades
    ⟨[⟨1, "t", "c", 0, 7⟩], [⟨1, 1, 1, 1, none, false⟩, ⟨2, 1, 2, 24, none, true⟩], 2, 3⟩
    ⟨[], [], 2, 3⟩ 1 (by decide) (by decide) rfl

/-- The user's learning items, as the specification words it. -/
def specUserItems (db : DB) (u : Nat) : List LearningItem :=
  db.items.filter (fun it => decide (it.user_id = u))

/-- The user's non-deleted review schedules, as the specification words it:
schedules whose parent learning item belongs to the user and whose soft-delete
flag is off. -/
def specUserLiveSchedules (db : DB) (u : Nat) : List ReviewSchedule :=
  db.schedules.filter (fun s =>
    decide (∃ it ∈ db.items, it.id = s.learning_item_id ∧ it.user_id = u) && !s.is_deleted)

/-- Those of the user's non-deleted schedules with a non-null completion. -/
def specUserCompletedSchedules (db : DB) (u : Nat) : List ReviewSchedule :=
  (specUserLiveSchedules db u).filter (fun s => decide (s.completed ≠ none))

/-- C3: `analyze_learning_pattern(u)` returns `total_items` equal to the count
of the user's learning items, and `completion_rate` equal to
completed / non-deleted × 100 rounded to one decimal place over the user's
non-deleted schedules — exactly 0 when the user has no non-deleted schedule. -/
theorem C3_analytics_counts_and_rate (db : DB) (u : Nat) :
    (analyze_learning_pattern db u).total_items = (specUserItems db u).length ∧
    ((specUserLiveSchedules db u).length = 0 →
      (analyze_learning_pattern db u).completion_rate = 0) ∧
    (0 < (specUserLiveSchedules db u).length →
      (analyze_learning_pattern db u).completion_rate =
        pyRound1 (((specUserCompletedSchedules db u).length : ℚ) /
          ((specUserLiveSchedules db u).length : ℚ) * 100)) := by
  have hA : db.items.filter (fun it => it.user_id == u) = specUserItems db u := by
    rw [specUserItems]
    exact List.filter_congr (fun it _ => by by_cases h : it.user_id = u <;> simp [h])
  have hB : db.schedules.filter (fun s =>
      (db.items.any (fun it => it.id == s.learning_item_id && it.user_id == u)) &&
      s.is_deleted == false) = specUserLiveSchedules db u := by
    rw [specUserLiveSchedules]
    refine List.filter_congr (fun s _ => ?_)
    apply Bool.eq_iff_iff.mpr
    simp [List.any_eq_true]
  have hC : db.schedules.filter (fun s =>
      (db.items.any (fun it => it.id == s.learning_item_id && it.user_id == u)) &&
      !(s.completed == none) &&
      s.is_deleted == false) = specUserCompletedSchedules db u := by
    rw [specUserCompletedSchedules, specUserLiveSchedules, List.filter_filter]
    refine List.filter_congr (fun s _ => ?_)
    apply Bool.eq_iff_iff.mpr
    simp [List.any_eq_true]
    tauto
  refine ⟨?_, ?_, ?_⟩
  · simp only [analyze_learning_pattern]
    rw [hA]
  · intro hz
    simp only [analyze_learning_pattern]
    rw [hB, hz]
    norm_num [pyRound1, roundHalfEven]
  · intro hpos
    simp only [analyze_learning_pattern]
    rw [hB, hC, if_pos hpos]

/-- C3 witness: one user item with two live schedules (one completed) and a
soft-deleted one, instantiating every part of the statement. -/
theorem C3_analytics_counts_and_rate_witness :
    (analyze_learning_pattern ⟨[⟨1, "a", "b", 0, 7⟩],
        [⟨1, 1, 1, 1, some 2, false⟩, ⟨2, 1, 2, 24, none, false⟩,
         ⟨3, 1, 3, 72, none, true⟩], 2, 4⟩ 7).total_items =
      (specUserItems ⟨[⟨1, "a", "b", 0, 7⟩],
        [⟨1, 1, 1, 1, some 2, false⟩, ⟨2, 1, 2, 24, none, false⟩,
         ⟨3, 1, 3, 72, none, true⟩], 2, 4⟩ 7).length ∧
    ((specUserLiveSchedules ⟨[⟨1, "a", "b", 0, 7⟩],
        [⟨1, 1, 1, 1, some 2, false⟩, ⟨2, 1, 2, 24, none, false⟩,
         ⟨3, 1, 3, 72, none, true⟩], 2, 4⟩ 7).length = 0 →
      (analyze_learning_pattern ⟨[⟨1, "a", "b", 0, 7⟩],
        [⟨1, 1, 1, 1, some 2, false⟩, ⟨2, 1, 2, 24, none, false⟩,
         ⟨3, 1, 3, 72, none, true⟩], 2, 4⟩ 7).completion_rate = 0) ∧
    (0 < (specUserLiveSchedules ⟨[⟨1, "a", "b", 0, 7⟩],
        [⟨1, 1, 1, 1, some 2, false⟩, ⟨2, 1, 2, 24, none, false⟩,
         ⟨3, 1, 3, 72, none, true⟩], 2, 4⟩ 7).length →
      (analyze_learning_pattern ⟨[⟨1, "a", "b", 0, 7⟩],
        [⟨1, 1, 1, 1, some 2, false⟩, ⟨2, 1, 2, 24, none, false⟩,
         ⟨3, 1, 3, 72, none, true⟩], 2, 4⟩ 7).completion_rate =
        pyRound1 (((specUserCompletedSchedules ⟨[⟨1, "a", "b", 0, 7⟩],
          [⟨1, 1, 1, 1, some 2, false⟩, ⟨2, 1, 2, 24, none, false⟩,
           ⟨3, 1, 3, 72, none, true⟩], 2, 4⟩ 7).length : ℚ) /
          ((specUserLiveSchedules ⟨[⟨1, "a", "b", 0, 7⟩],
          [⟨1, 1, 1, 1, some 2, false⟩, ⟨2, 1, 2, 24, none, false⟩,
           ⟨3, 1, 3, 72, none, true⟩], 2, 4⟩ 7).length : ℚ) * 100)) :=
  C3_analytics_counts_and_rate ⟨[⟨1, "a", "b", 0, 7⟩],
    [⟨1, 1, 1, 1, some 2, false⟩, ⟨2, 1, 2, 24, none, false⟩,
     ⟨3, 1, 3, 72, none, true⟩], 2, 4⟩ 7
